import Mathlib

/-
Verification of the lazy OpenGL symbol resolver in dhpoware/glLoader
(src/OpenGL.cpp, src/Main.cpp).

Shallow embedding conventions:
  * Pointer-sized values (HMODULE, HDC, HGLRC, PROC, void*, function
    arguments) are modelled as Nat, with 0 standing for the null pointer
    and 2^64 - 1 for the all-ones bit pattern reinterpret_cast<void*>(-1).
  * The Win32 / driver environment (LoadLibraryA, GetProcAddress, the
    driver's wglGetProcAddress, calls through resolved function pointers,
    GetDC, ChoosePixelFormat, SetPixelFormat, gdi32's SwapBuffers) is an
    uninterpreted record of functions, WinEnv.
  * Observable external actions are recorded in an event trace (List Ev)
    so that claims of the form "no call into the resolver occurs" can be
    stated and proved.
  * The Loader singleton (Loader::instance) is a Loader value produced
    once by the constructor from the environment; methods take it
    explicitly.  Static per-symbol cache slots are explicit state that is
    threaded through each wrapper.
-/

/-- Observable events of the embedded program: calls through the
extension-query function pointer, direct GetProcAddress lookups against
the library handle, calls into Loader::getProcAddress, calls through a
resolved entry-point pointer with its argument list, and the Win32 calls
made by OpenGLContext (gdi32 SwapBuffers, GetDC, ChoosePixelFormat,
SetPixelFormat). -/
inductive Ev where
  | extQuery (name : String)
  | directLookup (name : String)
  | resolveCall (name : String)
  | callPtr (addr : Nat) (args : List Nat)
  | osSwapBuffers (hdc : Nat)
  | getDC (hwnd : Nat)
  | choosePF (hdc : Nat) (pfd : Nat)
  | setPF (hdc : Nat) (pf : Nat) (pfd : Nat)
  deriving DecidableEq, Repr

/-- The all-ones pointer bit pattern, reinterpret_cast<void*>(-1) on a
64-bit platform. -/
def ptrAllOnes : Nat := 2 ^ 64 - 1

/-- The Win32 / graphics-driver environment, uninterpreted.
loadLibraryA returns a module handle (0 = load failure);
sysGetProcAddress models GetProcAddress(handle, name) (0 = not found);
wglQuery is the behaviour of the driver's wglGetProcAddress function
when invoked; callPtr is the result of invoking the function pointer at
a given address with a given argument list; the remaining fields model
GetDC, ChoosePixelFormat, SetPixelFormat and gdi32's SwapBuffers. -/
structure WinEnv where
  loadLibraryA : String → Nat
  sysGetProcAddress : Nat → String → Nat
  wglQuery : String → Nat
  callPtr : Nat → List Nat → Nat
  getDC : Nat → Nat
  choosePixelFormat : Nat → Nat → Nat
  setPixelFormat : Nat → Nat → Nat → Bool
  osSwapBuffers : Nat → Nat

/-- The Loader singleton's state: the handle of opengl32.dll (m_hLibGL,
0 = null) and the address of its wglGetProcAddress export
(m_pfnWglGetProcAddress, 0 = null).  From src/OpenGL.cpp lines 41-56. -/
structure Loader where
  m_hLibGL : Nat
  m_pfnWglGetProcAddress : Nat
  deriving DecidableEq, Repr

/-- The Loader constructor, src/OpenGL.cpp lines 64-72: both members
start null; LoadLibraryA("opengl32.dll") is attempted, and only if it
succeeds is the wglGetProcAddress export looked up. -/
def Loader.construct (env : WinEnv) : Loader :=
  let hLibGL := env.loadLibraryA "opengl32.dll"
  if hLibGL ≠ 0 then
    { m_hLibGL := hLibGL
      m_pfnWglGetProcAddress := env.sysGetProcAddress hLibGL "wglGetProcAddress" }
  else
    { m_hLibGL := 0, m_pfnWglGetProcAddress := 0 }

/-- The failure test on the value returned by the extension-query
function, src/OpenGL.cpp line 91: null, 1, 2, 3, or all-ones. -/
def isResolveFailure (pfn : Nat) : Bool :=
  pfn == 0 || pfn == 1 || pfn == 2 || pfn == 3 || pfn == ptrAllOnes

/-- Loader::getProcAddress, src/OpenGL.cpp lines 83-98.  Returns the
resolved address together with the trace of external calls it makes.
If m_pfnWglGetProcAddress is null the function returns the initial null
pfn without making any call; otherwise it invokes the extension-query
function and, when the result is null or a sentinel, falls back to
GetProcAddress against m_hLibGL. -/
def Loader.getProcAddress (env : WinEnv) (ld : Loader) (pszName : String) :
    Nat × List Ev :=
  if ld.m_pfnWglGetProcAddress ≠ 0 then
    let pfn := env.wglQuery pszName
    if isResolveFailure pfn then
      (env.sysGetProcAddress ld.m_hLibGL pszName,
        [Ev.extQuery pszName, Ev.directLookup pszName])
    else
      (pfn, [Ev.extQuery pszName])
  else
    (0, [])

/-- The address returned by Loader::instance().getProcAddress(name):
the singleton is the Loader built once by the constructor from the
environment. -/
def resolveName (env : WinEnv) (name : String) : Nat :=
  (Loader.getProcAddress env (Loader.construct env) name).1

/-- The LOAD_ENTRYPOINT macro, src/OpenGL.cpp lines 30-35, acting on one
cache slot (var, 0 = null): if the slot is empty it calls
Loader::instance().getProcAddress(name) and stores the result; otherwise
it leaves the slot untouched and makes no call.  Returns the slot value
after the step and the trace of calls made. -/
def loadEntrypointAddr (env : WinEnv) (name : String) (var : Nat) :
    Nat × List Ev :=
  if var = 0 then
    ((Loader.getProcAddress env (Loader.construct env) name).1,
      Ev.resolveCall name :: (Loader.getProcAddress env (Loader.construct env) name).2)
  else
    (var, [])

/-- Whether the assert(var != nullptr) in LOAD_ENTRYPOINT fires: the
assert statement is compiled only in debug builds, is executed only when
the slot was empty (inside the if), and fails exactly when the freshly
resolved address is null. -/
def loadEntrypointAssertFails (debug : Bool) (env : WinEnv) (name : String)
    (var : Nat) : Bool :=
  debug && var == 0 && resolveName env name == 0

/-- The cache slot of a wrapped entry point after n invocations of its
wrapper, starting from the empty (null) slot of a static local or
member initializer. -/
def slotAfter (env : WinEnv) (name : String) : Nat → Nat
  | 0 => 0
  | n + 1 => (loadEntrypointAddr env name (slotAfter env name n)).1

/-- The OpenGLContext per-symbol cache members, one per wrapped wgl
entry point, as used in src/OpenGL.cpp lines 121-245 (0 = null). -/
structure OpenGLContext where
  m_pfnWglCopyContext : Nat
  m_pfnWglCreateContext : Nat
  m_pfnWglCreateLayerContext : Nat
  m_pfnWglDeleteContext : Nat
  m_pfnWglDescribeLayerPlane : Nat
  m_pfnWglGetCurrentContext : Nat
  m_pfnWglGetCurrentDC : Nat
  m_pfnWglGetLayerPaletteEntries : Nat
  m_pfnWglMakeCurrent : Nat
  m_pfnWglRealizeLayerPalette : Nat
  m_pfnWglSetLayerPaletteEntries : Nat
  m_pfnWglShareLists : Nat
  m_pfnWglSwapLayerBuffers : Nat
  m_pfnWglSwapMultipleBuffers : Nat
  m_pfnWglUseFontBitmapsA : Nat
  m_pfnWglUseFontBitmapsW : Nat
  m_pfnWglUseFontOutlinesA : Nat
  m_pfnWglUseFontOutlinesW : Nat
  deriving DecidableEq, Repr

/-- Modelled from the spec: the OpenGLContext class definition lives in
the module interface file, which is not in src/; the spec states that
each SymbolCacheEntry "holds an optional resolved address, initially
empty", so a freshly constructed OpenGLContext (new OpenGLContext() in
createForWindow) has every cache member null. -/
def OpenGLContext.initial : OpenGLContext :=
  { m_pfnWglCopyContext := 0
    m_pfnWglCreateContext := 0
    m_pfnWglCreateLayerContext := 0
    m_pfnWglDeleteContext := 0
    m_pfnWglDescribeLayerPlane := 0
    m_pfnWglGetCurrentContext := 0
    m_pfnWglGetCurrentDC := 0
    m_pfnWglGetLayerPaletteEntries := 0
    m_pfnWglMakeCurrent := 0
    m_pfnWglRealizeLayerPalette := 0
    m_pfnWglSetLayerPaletteEntries := 0
    m_pfnWglShareLists := 0
    m_pfnWglSwapLayerBuffers := 0
    m_pfnWglSwapMultipleBuffers := 0
    m_pfnWglUseFontBitmapsA := 0
    m_pfnWglUseFontBitmapsW := 0
    m_pfnWglUseFontOutlinesA := 0
    m_pfnWglUseFontOutlinesW := 0 }

/-- OpenGLContext::createForWindow, src/OpenGL.cpp lines 104-119:
allocate a fresh context, obtain a device context for the window
(fail if null), choose a pixel format for the descriptor and set it
(fail if SetPixelFormat fails), otherwise return the context.  The
trace records the Win32 calls made. -/
def OpenGLContext.createForWindow (env : WinEnv) (hWnd : Nat) (pfd : Nat) :
    Option OpenGLContext × List Ev :=
  let pContext := OpenGLContext.initial
  let hDC := env.getDC hWnd
  if hDC = 0 then
    (none, [Ev.getDC hWnd])
  else
    let pf := env.choosePixelFormat hDC pfd
    if env.setPixelFormat hDC pf pfd = false then
      (none, [Ev.getDC hWnd, Ev.choosePF hDC pfd, Ev.setPF hDC pf pfd])
    else
      (some pContext, [Ev.getDC hWnd, Ev.choosePF hDC pfd, Ev.setPF hDC pf pfd])

/-- OpenGLContext::wglCopyContext, src/OpenGL.cpp lines 121-125. -/
def OpenGLContext.wglCopyContext (env : WinEnv) (c : OpenGLContext)
    (hglrcSource hglrcDest mask : Nat) : Nat × OpenGLContext × List Ev :=
  let r := loadEntrypointAddr env "wglCopyContext" c.m_pfnWglCopyContext
  (env.callPtr r.1 [hglrcSource, hglrcDest, mask],
    { c with m_pfnWglCopyContext := r.1 },
    r.2 ++ [Ev.callPtr r.1 [hglrcSource, hglrcDest, mask]])

/-- OpenGLContext::wglCreateContext, src/OpenGL.cpp lines 127-131. -/
def OpenGLContext.wglCreateContext (env : WinEnv) (c : OpenGLContext)
    (hdc : Nat) : Nat × OpenGLContext × List Ev :=
  let r := loadEntrypointAddr env "wglCreateContext" c.m_pfnWglCreateContext
  (env.callPtr r.1 [hdc],
    { c with m_pfnWglCreateContext := r.1 },
    r.2 ++ [Ev.callPtr r.1 [hdc]])

/-- OpenGLContext::wglCreateLayerContext, src/OpenGL.cpp lines 133-137. -/
def OpenGLContext.wglCreateLayerContext (env : WinEnv) (c : OpenGLContext)
    (hdc iLayerPlane : Nat) : Nat × OpenGLContext × List Ev :=
  let r := loadEntrypointAddr env "wglCreateLayerContext" c.m_pfnWglCreateLayerContext
  (env.callPtr r.1 [hdc, iLayerPlane],
    { c with m_pfnWglCreateLayerContext := r.1 },
    r.2 ++ [Ev.callPtr r.1 [hdc, iLayerPlane]])

/-- OpenGLContext::wglDeleteContext, src/OpenGL.cpp lines 139-143. -/
def OpenGLContext.wglDeleteContext (env : WinEnv) (c : OpenGLContext)
    (hglrc : Nat) : Nat × OpenGLContext × List Ev :=
  let r := loadEntrypointAddr env "wglDeleteContext" c.m_pfnWglDeleteContext
  (env.callPtr r.1 [hglrc],
    { c with m_pfnWglDeleteContext := r.1 },
    r.2 ++ [Ev.callPtr r.1 [hglrc]])

/-- OpenGLContext::wglDescribeLayerPlane, src/OpenGL.cpp lines 145-149. -/
def OpenGLContext.wglDescribeLayerPlane (env : WinEnv) (c : OpenGLContext)
    (hdc iPixelFormat iLayerPlane nBytes plpd : Nat) :
    Nat × OpenGLContext × List Ev :=
  let r := loadEntrypointAddr env "wglDescribeLayerPlane" c.m_pfnWglDescribeLayerPlane
  (env.callPtr r.1 [hdc, iPixelFormat, iLayerPlane, nBytes, plpd],
    { c with m_pfnWglDescribeLayerPlane := r.1 },
    r.2 ++ [Ev.callPtr r.1 [hdc, iPixelFormat, iLayerPlane, nBytes, plpd]])

/-- OpenGLContext::wglGetCurrentContext, src/OpenGL.cpp lines 151-155. -/
def OpenGLContext.wglGetCurrentContext (env : WinEnv) (c : OpenGLContext) :
    Nat × OpenGLContext × List Ev :=
  let r := loadEntrypointAddr env "wglGetCurrentContext" c.m_pfnWglGetCurrentContext
  (env.callPtr r.1 [],
    { c with m_pfnWglGetCurrentContext := r.1 },
    r.2 ++ [Ev.callPtr r.1 []])

/-- OpenGLContext::wglGetCurrentDC, src/OpenGL.cpp lines 157-161. -/
def OpenGLContext.wglGetCurrentDC (env : WinEnv) (c : OpenGLContext) :
    Nat × OpenGLContext × List Ev :=
  let r := loadEntrypointAddr env "wglGetCurrentDC" c.m_pfnWglGetCurrentDC
  (env.callPtr r.1 [],
    { c with m_pfnWglGetCurrentDC := r.1 },
    r.2 ++ [Ev.callPtr r.1 []])

/-- OpenGLContext::wglGetLayerPaletteEntries, src/OpenGL.cpp lines 163-167. -/
def OpenGLContext.wglGetLayerPaletteEntries (env : WinEnv) (c : OpenGLContext)
    (hdc iLayerPlane iStart cEntries pcr : Nat) :
    Nat × OpenGLContext × List Ev :=
  let r := loadEntrypointAddr env "wglGetLayerPaletteEntries" c.m_pfnWglGetLayerPaletteEntries
  (env.callPtr r.1 [hdc, iLayerPlane, iStart, cEntries, pcr],
    { c with m_pfnWglGetLayerPaletteEntries := r.1 },
    r.2 ++ [Ev.callPtr r.1 [hdc, iLayerPlane, iStart, cEntries, pcr]])

/-- OpenGLContext::wglGetProcAddress, src/OpenGL.cpp lines 169-172: no
cache slot at all; every invocation delegates to the Loader singleton
and returns its result, leaving the context untouched. -/
def OpenGLContext.wglGetProcAddress (env : WinEnv) (c : OpenGLContext)
    (lpszProc : String) : Nat × OpenGLContext × List Ev :=
  let r := Loader.getProcAddress env (Loader.construct env) lpszProc
  (r.1, c, Ev.resolveCall lpszProc :: r.2)

/-- OpenGLContext::wglMakeCurrent, src/OpenGL.cpp lines 174-178. -/
def OpenGLContext.wglMakeCurrent (env : WinEnv) (c : OpenGLContext)
    (hdc hglrc : Nat) : Nat × OpenGLContext × List Ev :=
  let r := loadEntrypointAddr env "wglMakeCurrent" c.m_pfnWglMakeCurrent
  (env.callPtr r.1 [hdc, hglrc],
    { c with m_pfnWglMakeCurrent := r.1 },
    r.2 ++ [Ev.callPtr r.1 [hdc, hglrc]])

/-- OpenGLContext::wglRealizeLayerPalette, src/OpenGL.cpp lines 180-184. -/
def OpenGLContext.wglRealizeLayerPalette (env : WinEnv) (c : OpenGLContext)
    (hdc iLayerPlane bRealize : Nat) : Nat × OpenGLContext × List Ev :=
  let r := loadEntrypointAddr env "wglRealizeLayerPalette" c.m_pfnWglRealizeLayerPalette
  (env.callPtr r.1 [hdc, iLayerPlane, bRealize],
    { c with m_pfnWglRealizeLayerPalette := r.1 },
    r.2 ++ [Ev.callPtr r.1 [hdc, iLayerPlane, bRealize]])

/-- OpenGLContext::wglSetLayerPaletteEntries, src/OpenGL.cpp lines 186-190. -/
def OpenGLContext.wglSetLayerPaletteEntries (env : WinEnv) (c : OpenGLContext)
    (hdc iLayerPlane iStart cEntries pcr : Nat) :
    Nat × OpenGLContext × List Ev :=
  let r := loadEntrypointAddr env "wglSetLayerPaletteEntries" c.m_pfnWglSetLayerPaletteEntries
  (env.callPtr r.1 [hdc, iLayerPlane, iStart, cEntries, pcr],
    { c with m_pfnWglSetLayerPaletteEntries := r.1 },
    r.2 ++ [Ev.callPtr r.1 [hdc, iLayerPlane, iStart, cEntries, pcr]])

/-- OpenGLContext::wglShareLists, src/OpenGL.cpp lines 192-196. -/
def OpenGLContext.wglShareLists (env : WinEnv) (c : OpenGLContext)
    (hglrc1 hglrc2 : Nat) : Nat × OpenGLContext × List Ev :=
  let r := loadEntrypointAddr env "wglShareLists" c.m_pfnWglShareLists
  (env.callPtr r.1 [hglrc1, hglrc2],
    { c with m_pfnWglShareLists := r.1 },
    r.2 ++ [Ev.callPtr r.1 [hglrc1, hglrc2]])

/-- OpenGLContext::SwapBuffers, src/OpenGL.cpp lines 198-209: the
LOAD_ENTRYPOINT path is commented out because SwapBuffers is exported
by gdi32.dll and not by opengl32.dll; the method calls the global
::SwapBuffers directly, touching neither the Loader nor any cache. -/
def OpenGLContext.SwapBuffers (env : WinEnv) (c : OpenGLContext)
    (hdc : Nat) : Nat × OpenGLContext × List Ev :=
  (env.osSwapBuffers hdc, c, [Ev.osSwapBuffers hdc])

/-- OpenGLContext::wglSwapLayerBuffers, src/OpenGL.cpp lines 211-215. -/
def OpenGLContext.wglSwapLayerBuffers (env : WinEnv) (c : OpenGLContext)
    (hdc fuPlanes : Nat) : Nat × OpenGLContext × List Ev :=
  let r := loadEntrypointAddr env "wglSwapLayerBuffers" c.m_pfnWglSwapLayerBuffers
  (env.callPtr r.1 [hdc, fuPlanes],
    { c with m_pfnWglSwapLayerBuffers := r.1 },
    r.2 ++ [Ev.callPtr r.1 [hdc, fuPlanes]])

/-- OpenGLContext::wglSwapMultipleBuffers, src/OpenGL.cpp lines 217-221. -/
def OpenGLContext.wglSwapMultipleBuffers (env : WinEnv) (c : OpenGLContext)
    (count toSwap : Nat) : Nat × OpenGLContext × List Ev :=
  let r := loadEntrypointAddr env "wglSwapMultipleBuffers" c.m_pfnWglSwapMultipleBuffers
  (env.callPtr r.1 [count, toSwap],
    { c with m_pfnWglSwapMultipleBuffers := r.1 },
    r.2 ++ [Ev.callPtr r.1 [count, toSwap]])

/-- OpenGLContext::wglUseFontBitmapsA, src/OpenGL.cpp lines 223-227. -/
def OpenGLContext.wglUseFontBitmapsA (env : WinEnv) (c : OpenGLContext)
    (hdc first count listBase : Nat) : Nat × OpenGLContext × List Ev :=
  let r := loadEntrypointAddr env "wglUseFontBitmapsA" c.m_pfnWglUseFontBitmapsA
  (env.callPtr r.1 [hdc, first, count, listBase],
    { c with m_pfnWglUseFontBitmapsA := r.1 },
    r.2 ++ [Ev.callPtr r.1 [hdc, first, count, listBase]])

/-- OpenGLContext::wglUseFontBitmapsW, src/OpenGL.cpp lines 229-233. -/
def OpenGLContext.wglUseFontBitmapsW (env : WinEnv) (c : OpenGLContext)
    (hdc first count listBase : Nat) : Nat × OpenGLContext × List Ev :=
  let r := loadEntrypointAddr env "wglUseFontBitmapsW" c.m_pfnWglUseFontBitmapsW
  (env.callPtr r.1 [hdc, first, count, listBase],
    { c with m_pfnWglUseFontBitmapsW := r.1 },
    r.2 ++ [Ev.callPtr r.1 [hdc, first, count, listBase]])

/-- OpenGLContext::wglUseFontOutlinesA, src/OpenGL.cpp lines 235-239. -/
def OpenGLContext.wglUseFontOutlinesA (env : WinEnv) (c : OpenGLContext)
    (hdc first count listBase deviation extrusion format lpgmf : Nat) :
    Nat × OpenGLContext × List Ev :=
  let r := loadEntrypointAddr env "wglUseFontOutlinesA" c.m_pfnWglUseFontOutlinesA
  (env.callPtr r.1 [hdc, first, count, listBase, deviation, extrusion, format, lpgmf],
    { c with m_pfnWglUseFontOutlinesA := r.1 },
    r.2 ++ [Ev.callPtr r.1 [hdc, first, count, listBase, deviation, extrusion, format, lpgmf]])

/-- OpenGLContext::wglUseFontOutlinesW, src/OpenGL.cpp lines 241-245. -/
def OpenGLContext.wglUseFontOutlinesW (env : WinEnv) (c : OpenGLContext)
    (hdc first count listBase deviation extrusion format lpgmf : Nat) :
    Nat × OpenGLContext × List Ev :=
  let r := loadEntrypointAddr env "wglUseFontOutlinesW" c.m_pfnWglUseFontOutlinesW
  (env.callPtr r.1 [hdc, first, count, listBase, deviation, extrusion, format, lpgmf],
    { c with m_pfnWglUseFontOutlinesW := r.1 },
    r.2 ++ [Ev.callPtr r.1 [hdc, first, count, listBase, deviation, extrusion, format, lpgmf]])

/-- The free function glGetError, src/OpenGL.cpp lines 539-545: its
static per-symbol cache slot is threaded explicitly; the wrapper runs
LOAD_ENTRYPOINT on the slot and calls through the resolved address with
no arguments, returning the result, the updated slot, and the trace. -/
def glGetError (env : WinEnv) (pfnGetError : Nat) : Nat × Nat × List Ev :=
  let r := loadEntrypointAddr env "glGetError" pfnGetError
  (env.callPtr r.1 [], r.1, r.2 ++ [Ev.callPtr r.1 []])

/-- A healthy environment: opengl32.dll loads at handle 7, its
wglGetProcAddress export is at address 9, the driver query answers the
sentinel 1 for wglCreateContext and 100 for everything else, direct
exports sit at 300, and GetDC fails only for window handle 0. -/
def envOk : WinEnv :=
  { loadLibraryA := fun _ => 7
    sysGetProcAddress := fun h n =>
      if h = 7 then (if n = "wglGetProcAddress" then 9 else 300) else 0
    wglQuery := fun n => if n = "wglCreateContext" then 1 else 100
    callPtr := fun a args => a + args.length
    getDC := fun w => if w = 0 then 0 else 500 + w
    choosePixelFormat := fun _ _ => 2
    setPixelFormat := fun _ pf _ => pf != 0
    osSwapBuffers := fun _ => 1 }

/-- An environment in which the driver library fails to load. -/
def envNoLib : WinEnv :=
  { loadLibraryA := fun _ => 0
    sysGetProcAddress := fun _ _ => 0
    wglQuery := fun _ => 0
    callPtr := fun _ _ => 0
    getDC := fun _ => 0
    choosePixelFormat := fun _ _ => 0
    setPixelFormat := fun _ _ _ => false
    osSwapBuffers := fun _ => 0 }

/-- An environment in which the library loads and its wglGetProcAddress
export exists, but no other symbol resolves by either tier. -/
def envMissing : WinEnv :=
  { loadLibraryA := fun _ => 7
    sysGetProcAddress := fun h n => if h = 7 ∧ n = "wglGetProcAddress" then 9 else 0
    wglQuery := fun _ => 0
    callPtr := fun _ _ => 0
    getDC := fun _ => 0
    choosePixelFormat := fun _ _ => 0
    setPixelFormat := fun _ _ _ => false
    osSwapBuffers := fun _ => 0 }

/-- An environment in which GetDC succeeds but ChoosePixelFormat finds
no compatible format (returns 0) and SetPixelFormat rejects the invalid
format index 0, per the Win32 contract. -/
def envBadFormat : WinEnv :=
  { loadLibraryA := fun _ => 7
    sysGetProcAddress := fun h n => if h = 7 ∧ n = "wglGetProcAddress" then 9 else 300
    wglQuery := fun _ => 100
    callPtr := fun a args => a + args.length
    getDC := fun w => w + 600
    choosePixelFormat := fun _ _ => 0
    setPixelFormat := fun _ pf _ => pf != 0
    osSwapBuffers := fun _ => 1 }

/-- C1: when the extension-query function pointer is present,
Loader::getProcAddress first invokes it with the requested name; if the
returned value is null or equals one of the reserved sentinels 0x1,
0x2, 0x3, or the all-ones pattern, it returns the result of the direct
exported-symbol lookup against the library handle, and for any other
returned value it returns that value without performing the direct
lookup. -/
theorem getProcAddress_sentinel_fallback (env : WinEnv) (ld : Loader)
    (name : String) (h : ld.m_pfnWglGetProcAddress ≠ 0) :
    ((Loader.getProcAddress env ld name).2.head? = some (Ev.extQuery name))
    ∧ (isResolveFailure (env.wglQuery name) = true →
        Loader.getProcAddress env ld name
          = (env.sysGetProcAddress ld.m_hLibGL name,
              [Ev.extQuery name, Ev.directLookup name]))
    ∧ (isResolveFailure (env.wglQuery name) = false →
        Loader.getProcAddress env ld name
          = (env.wglQuery name, [Ev.extQuery name])) := by
  rw [Loader.getProcAddress, if_pos h]
  cases hf : isResolveFailure (env.wglQuery name) <;> simp [hf]

/-- C1 witness: in envOk with the constructed loader state (handle 7,
query pointer 9), resolving wglCreateContext hits the sentinel 1 and
falls back to the direct export. -/
theorem getProcAddress_sentinel_fallback_witness :
    ((⟨7, 9⟩ : Loader).m_pfnWglGetProcAddress ≠ 0)
    ∧ (((Loader.getProcAddress envOk ⟨7, 9⟩ "wglCreateContext").2.head?
          = some (Ev.extQuery "wglCreateContext"))
      ∧ (isResolveFailure (envOk.wglQuery "wglCreateContext") = true →
          Loader.getProcAddress envOk ⟨7, 9⟩ "wglCreateContext"
            = (envOk.sysGetProcAddress (⟨7, 9⟩ : Loader).m_hLibGL "wglCreateContext",
                [Ev.extQuery "wglCreateContext", Ev.directLookup "wglCreateContext"]))
      ∧ (isResolveFailure (envOk.wglQuery "wglCreateContext") = false →
          Loader.getProcAddress envOk ⟨7, 9⟩ "wglCreateContext"
            = (envOk.wglQuery "wglCreateContext", [Ev.extQuery "wglCreateContext"]))) :=
  ⟨by decide, getProcAddress_sentinel_fallback envOk ⟨7, 9⟩ "wglCreateContext" (by decide)⟩

/-- C9: if the extension-query function pointer was never obtained, the
resolver returns null immediately for every name with an empty trace:
no extension query and no direct exported-symbol lookup is attempted,
whatever the library handle. -/
theorem getProcAddress_null_without_query (env : WinEnv) (ld : Loader)
    (name : String) (h : ld.m_pfnWglGetProcAddress = 0) :
    Loader.getProcAddress env ld name = (0, []) := by
  rw [Loader.getProcAddress]
  simp [h]

/-- C9 witness: a loader with a valid library handle 7 but a null
extension-query pointer resolves glGetError to null with no lookup. -/
theorem getProcAddress_null_without_query_witness :
    ((⟨7, 0⟩ : Loader).m_pfnWglGetProcAddress = 0)
    ∧ ((⟨7, 0⟩ : Loader).m_hLibGL ≠ 0)
    ∧ Loader.getProcAddress envOk ⟨7, 0⟩ "glGetError" = (0, []) :=
  ⟨rfl, by decide, getProcAddress_null_without_query envOk ⟨7, 0⟩ "glGetError" rfl⟩

/-- C10: OpenGLContext::wglGetProcAddress maintains no per-symbol
cache: every invocation delegates to the Loader singleton's
getProcAddress with the given name, returns its result, and leaves the
context state unchanged, so a second invocation again starts with the
delegating resolver call. -/
theorem wglGetProcAddress_no_cache (env : WinEnv) (c : OpenGLContext)
    (name : String) :
    OpenGLContext.wglGetProcAddress env c name
      = ((Loader.getProcAddress env (Loader.construct env) name).1, c,
          Ev.resolveCall name
            :: (Loader.getProcAddress env (Loader.construct env) name).2)
    ∧ ((OpenGLContext.wglGetProcAddress env
          (OpenGLContext.wglGetProcAddress env c name).2.1 name).2.2.head?
        = some (Ev.resolveCall name)) :=
  ⟨rfl, rfl⟩

/-- C8: a wrapped entry point calls through the address held in its
cache slot after the load step with exactly the arguments it was given,
in order and unmodified, and returns the callee's result unmodified, on
every invocation including the first; shown for the representative
wrappers OpenGLContext::wglCreateContext and glGetError from any prior
slot state. -/
theorem wrapper_forwards_arguments (env : WinEnv) (c : OpenGLContext)
    (hdc : Nat) (slot : Nat) :
    ((OpenGLContext.wglCreateContext env c hdc).1
        = env.callPtr
            (OpenGLContext.wglCreateContext env c hdc).2.1.m_pfnWglCreateContext
            [hdc])
    ∧ ((OpenGLContext.wglCreateContext env c hdc).2.1.m_pfnWglCreateContext
        = (loadEntrypointAddr env "wglCreateContext" c.m_pfnWglCreateContext).1)
    ∧ ((glGetError env slot).1 = env.callPtr (glGetError env slot).2.1 [])
    ∧ ((glGetError env slot).2.1 = (loadEntrypointAddr env "glGetError" slot).1) :=
  ⟨rfl, rfl, rfl, rfl⟩

/-- C2: provided the first resolution yields a non-null address (the
resolved address the claim speaks of), a wrapped entry point's cache
slot starts empty, is written exactly once by the first invocation,
holds the resolved address from then on, is never cleared or
re-resolved (every later step makes no resolver call and leaves the
slot unchanged), and the address used by the second invocation equals
the address used by the first. -/
theorem cache_slot_write_once (env : WinEnv) (name : String)
    (h : resolveName env name ≠ 0) :
    slotAfter env name 0 = 0
    ∧ (∀ n, 1 ≤ n → slotAfter env name n = resolveName env name)
    ∧ ((loadEntrypointAddr env name (slotAfter env name 0)).2.head?
        = some (Ev.resolveCall name))
    ∧ (∀ n, 1 ≤ n → (loadEntrypointAddr env name (slotAfter env name n)).2 = [])
    ∧ ((loadEntrypointAddr env name (slotAfter env name 1)).1
        = (loadEntrypointAddr env name (slotAfter env name 0)).1) := by
  have key : ∀ n, slotAfter env name (n + 1) = resolveName env name := by
    intro n
    induction n with
    | zero =>
        show (loadEntrypointAddr env name (slotAfter env name 0)).1 = _
        rw [slotAfter, loadEntrypointAddr, if_pos rfl, resolveName]
    | succ k ih =>
        show (loadEntrypointAddr env name (slotAfter env name (k + 1))).1 = _
        rw [ih, loadEntrypointAddr, if_neg h]
  have stable : ∀ n, 1 ≤ n → slotAfter env name n = resolveName env name := by
    intro n hn
    cases n with
    | zero => exact absurd hn (by decide)
    | succ k => exact key k
  refine ⟨rfl, stable, ?_, ?_, ?_⟩
  · rw [slotAfter, loadEntrypointAddr, if_pos rfl]
    rfl
  · intro n hn
    rw [stable n hn, loadEntrypointAddr, if_neg h]
  · rw [stable 1 (by decide), loadEntrypointAddr, if_neg h]
    rw [slotAfter, loadEntrypointAddr, if_pos rfl, resolveName]

/-- C2 witness: in envOk the glGetError slot resolves to 100 on first
use, stays 100, and the second invocation uses the same address. -/
theorem cache_slot_write_once_witness :
    resolveName envOk "glGetError" ≠ 0
    ∧ (slotAfter envOk "glGetError" 0 = 0
      ∧ (∀ n, 1 ≤ n → slotAfter envOk "glGetError" n = resolveName envOk "glGetError")
      ∧ ((loadEntrypointAddr envOk "glGetError" (slotAfter envOk "glGetError" 0)).2.head?
          = some (Ev.resolveCall "glGetError"))
      ∧ (∀ n, 1 ≤ n →
          (loadEntrypointAddr envOk "glGetError" (slotAfter envOk "glGetError" n)).2 = [])
      ∧ ((loadEntrypointAddr envOk "glGetError" (slotAfter envOk "glGetError" 1)).1
          = (loadEntrypointAddr envOk "glGetError" (slotAfter envOk "glGetError" 0)).1)) :=
  ⟨by decide, cache_slot_write_once envOk "glGetError" (by decide)⟩

/-- C4: when the extension-query step returns null for a name and the
direct exported-symbol lookup also returns null, Loader::getProcAddress
returns the null indication as an ordinary value (no exception, no
abort); the non-null assertion sits in the per-symbol wrappers and
fires only in debug builds (with the assert compiled out, nothing
fires). -/
theorem resolver_null_when_both_tiers_fail (env : WinEnv) (name : String)
    (hq : (Loader.construct env).m_pfnWglGetProcAddress ≠ 0)
    (h1 : env.wglQuery name = 0)
    (h2 : env.sysGetProcAddress (Loader.construct env).m_hLibGL name = 0) :
    Loader.getProcAddress env (Loader.construct env) name
      = (0, [Ev.extQuery name, Ev.directLookup name])
    ∧ loadEntrypointAssertFails true env name 0 = true
    ∧ loadEntrypointAssertFails false env name 0 = false := by
  have hres : Loader.getProcAddress env (Loader.construct env) name
      = (0, [Ev.extQuery name, Ev.directLookup name]) := by
    rw [Loader.getProcAddress, if_pos hq]
    simp [h1, isResolveFailure, h2]
  refine ⟨hres, ?_, rfl⟩
  simp [loadEntrypointAssertFails, resolveName, hres]

/-- C4 witness: in envMissing both tiers fail for glGetError; the
resolver returns null and only the debug-build wrapper assert fails. -/
theorem resolver_null_when_both_tiers_fail_witness :
    (Loader.construct envMissing).m_pfnWglGetProcAddress ≠ 0
    ∧ envMissing.wglQuery "glGetError" = 0
    ∧ envMissing.sysGetProcAddress (Loader.construct envMissing).m_hLibGL "glGetError" = 0
    ∧ (Loader.getProcAddress envMissing (Loader.construct envMissing) "glGetError"
        = (0, [Ev.extQuery "glGetError", Ev.directLookup "glGetError"])
      ∧ loadEntrypointAssertFails true envMissing "glGetError" 0 = true
      ∧ loadEntrypointAssertFails false envMissing "glGetError" 0 = false) :=
  ⟨by decide, rfl, by decide,
    resolver_null_when_both_tiers_fail envMissing "glGetError"
      (by decide) rfl (by decide)⟩

/-- C3 counterexample: when the driver library fails to load
(envNoLib), the claimed fatal stop does not happen in the resolver:
Loader's constructor records the failure silently and the subsequent
resolution call proceeds, returning the null failure value (0) with no
report and no termination, which is exactly the behaviour the claim
rules out. -/
theorem loader_not_fatal_on_load_failure :
    (Loader.construct envNoLib).m_hLibGL = 0
    ∧ Loader.getProcAddress envNoLib (Loader.construct envNoLib) "glGetError"
        = (0, []) := by
  exact ⟨rfl, rfl⟩

/-- C3 amended: if the driver library cannot be loaded or its
extension-query export cannot be found, the loader does not report or
terminate; every resolution call silently returns the null failure
value with no lookup attempted, and the condition surfaces only
through the per-symbol wrappers' debug-build assertion when an entry
point is first used (nothing fires in release builds). -/
theorem loader_silent_on_environment_failure (env : WinEnv)
    (h : env.loadLibraryA "opengl32.dll" = 0
      ∨ env.sysGetProcAddress (env.loadLibraryA "opengl32.dll") "wglGetProcAddress" = 0)
    (name : String) :
    Loader.getProcAddress env (Loader.construct env) name = (0, [])
    ∧ loadEntrypointAssertFails true env name 0 = true
    ∧ loadEntrypointAssertFails false env name 0 = false := by
  have hpfn : (Loader.construct env).m_pfnWglGetProcAddress = 0 := by
    rcases h with h | h
    · rw [Loader.construct]
      simp [h]
    · by_cases hl : env.loadLibraryA "opengl32.dll" = 0
      · rw [Loader.construct]
        simp [hl]
      · rw [Loader.construct]
        simp [hl, h]
  have hres : Loader.getProcAddress env (Loader.construct env) name = (0, []) := by
    rw [Loader.getProcAddress]
    simp [hpfn]
  refine ⟨hres, ?_, rfl⟩
  simp [loadEntrypointAssertFails, resolveName, hres]

/-- C3 amended witness: in envNoLib the library load fails; resolution
of glGetError silently yields null and only the debug assert fails. -/
theorem loader_silent_on_environment_failure_witness :
    (envNoLib.loadLibraryA "opengl32.dll" = 0
      ∨ envNoLib.sysGetProcAddress (envNoLib.loadLibraryA "opengl32.dll")
          "wglGetProcAddress" = 0)
    ∧ (Loader.getProcAddress envNoLib (Loader.construct envNoLib) "glGetError"
        = (0, [])
      ∧ loadEntrypointAssertFails true envNoLib "glGetError" 0 = true
      ∧ loadEntrypointAssertFails false envNoLib "glGetError" 0 = false) :=
  ⟨Or.inl rfl,
    loader_silent_on_environment_failure envNoLib (Or.inl rfl) "glGetError"⟩

/-- C5: OpenGLContext::SwapBuffers is dispatched directly through the
OS presentation call: its result is gdi32's SwapBuffers result, it
leaves every per-symbol cache slot of the context unchanged, and its
trace contains no resolver call; by contrast every other forwarding
operation of the context, invoked on a fresh context, begins with a
call into the Symbol Resolver. -/
theorem swapBuffers_bypasses_resolver (env : WinEnv) (c : OpenGLContext)
    (hdc : Nat) :
    (OpenGLContext.SwapBuffers env c hdc
      = (env.osSwapBuffers hdc, c, [Ev.osSwapBuffers hdc]))
    ∧ (∀ s, Ev.resolveCall s ∉ (OpenGLContext.SwapBuffers env c hdc).2.2)
    ∧ (∀ a b m, (OpenGLContext.wglCopyContext env .initial a b m).2.2.head?
        = some (Ev.resolveCall "wglCopyContext"))
    ∧ (∀ a, (OpenGLContext.wglCreateContext env .initial a).2.2.head?
        = some (Ev.resolveCall "wglCreateContext"))
    ∧ (∀ a b, (OpenGLContext.wglCreateLayerContext env .initial a b).2.2.head?
        = some (Ev.resolveCall "wglCreateLayerContext"))
    ∧ (∀ a, (OpenGLContext.wglDeleteContext env .initial a).2.2.head?
        = some (Ev.resolveCall "wglDeleteContext"))
    ∧ (∀ a b d e f, (OpenGLContext.wglDescribeLayerPlane env .initial a b d e f).2.2.head?
        = some (Ev.resolveCall "wglDescribeLayerPlane"))
    ∧ ((OpenGLContext.wglGetCurrentContext env .initial).2.2.head?
        = some (Ev.resolveCall "wglGetCurrentContext"))
    ∧ ((OpenGLContext.wglGetCurrentDC env .initial).2.2.head?
        = some (Ev.resolveCall "wglGetCurrentDC"))
    ∧ (∀ a b d e f, (OpenGLContext.wglGetLayerPaletteEntries env .initial a b d e f).2.2.head?
        = some (Ev.resolveCall "wglGetLayerPaletteEntries"))
    ∧ (∀ a b, (OpenGLContext.wglMakeCurrent env .initial a b).2.2.head?
        = some (Ev.resolveCall "wglMakeCurrent"))
    ∧ (∀ a b d, (OpenGLContext.wglRealizeLayerPalette env .initial a b d).2.2.head?
        = some (Ev.resolveCall "wglRealizeLayerPalette"))
    ∧ (∀ a b d e f, (OpenGLContext.wglSetLayerPaletteEntries env .initial a b d e f).2.2.head?
        = some (Ev.resolveCall "wglSetLayerPaletteEntries"))
    ∧ (∀ a b, (OpenGLContext.wglShareLists env .initial a b).2.2.head?
        = some (Ev.resolveCall "wglShareLists"))
    ∧ (∀ a b, (OpenGLContext.wglSwapLayerBuffers env .initial a b).2.2.head?
        = some (Ev.resolveCall "wglSwapLayerBuffers"))
    ∧ (∀ a b, (OpenGLContext.wglSwapMultipleBuffers env .initial a b).2.2.head?
        = some (Ev.resolveCall "wglSwapMultipleBuffers"))
    ∧ (∀ a b d e, (OpenGLContext.wglUseFontBitmapsA env .initial a b d e).2.2.head?
        = some (Ev.resolveCall "wglUseFontBitmapsA"))
    ∧ (∀ a b d e, (OpenGLContext.wglUseFontBitmapsW env .initial a b d e).2.2.head?
        = some (Ev.resolveCall "wglUseFontBitmapsW"))
    ∧ (∀ a b d e f g i j, (OpenGLContext.wglUseFontOutlinesA env .initial a b d e f g i j).2.2.head?
        = some (Ev.resolveCall "wglUseFontOutlinesA"))
    ∧ (∀ a b d e f g i j, (OpenGLContext.wglUseFontOutlinesW env .initial a b d e f g i j).2.2.head?
        = some (Ev.resolveCall "wglUseFontOutlinesW")) := by
  refine ⟨rfl, ?_, fun a b m => rfl, fun a => rfl, fun a b => rfl, fun a => rfl,
    fun a b d e f => rfl, rfl, rfl, fun a b d e f => rfl, fun a b => rfl,
    fun a b d => rfl, fun a b d e f => rfl, fun a b => rfl, fun a b => rfl,
    fun a b => rfl, fun a b d e => rfl, fun a b d e => rfl,
    fun a b d e f g i j => rfl, fun a b d e f g i j => rfl⟩
  intro s
  simp [OpenGLContext.SwapBuffers]

/-- C6: when the platform's format negotiation finds no compatible
pixel format (ChoosePixelFormat returns 0, and per the Win32 contract
SetPixelFormat rejects the invalid format index 0), or when setting the
chosen format on the surface fails, createForWindow returns the empty
result, and its trace contains no resolver call and no call through any
entry point: in particular no context creation is performed. -/
theorem createForWindow_format_failure (env : WinEnv) (hWnd pfd : Nat)
    (hSet0 : ∀ hdc p, env.setPixelFormat hdc 0 p = false)
    (hfail : env.choosePixelFormat (env.getDC hWnd) pfd = 0
      ∨ env.setPixelFormat (env.getDC hWnd)
          (env.choosePixelFormat (env.getDC hWnd) pfd) pfd = false) :
    (OpenGLContext.createForWindow env hWnd pfd).1 = none
    ∧ (∀ s, Ev.resolveCall s ∉ (OpenGLContext.createForWindow env hWnd pfd).2)
    ∧ (∀ a args, Ev.callPtr a args ∉ (OpenGLContext.createForWindow env hWnd pfd).2) := by
  have hsetF : env.setPixelFormat (env.getDC hWnd)
      (env.choosePixelFormat (env.getDC hWnd) pfd) pfd = false := by
    rcases hfail with h | h
    · rw [h]
      exact hSet0 _ _
    · exact h
  rw [OpenGLContext.createForWindow]
  by_cases hdc0 : env.getDC hWnd = 0 <;> simp [hdc0, hsetF]

/-- C6 witness: in envBadFormat, ChoosePixelFormat finds no format for
window 3 and descriptor 11, and createForWindow fails cleanly. -/
theorem createForWindow_format_failure_witness :
    (∀ hdc p, envBadFormat.setPixelFormat hdc 0 p = false)
    ∧ (envBadFormat.choosePixelFormat (envBadFormat.getDC 3) 11 = 0
      ∨ envBadFormat.setPixelFormat (envBadFormat.getDC 3)
          (envBadFormat.choosePixelFormat (envBadFormat.getDC 3) 11) 11 = false)
    ∧ ((OpenGLContext.createForWindow envBadFormat 3 11).1 = none
      ∧ (∀ s, Ev.resolveCall s ∉ (OpenGLContext.createForWindow envBadFormat 3 11).2)
      ∧ (∀ a args, Ev.callPtr a args ∉ (OpenGLContext.createForWindow envBadFormat 3 11).2)) :=
  ⟨fun _ _ => rfl, Or.inl rfl,
    createForWindow_format_failure envBadFormat 3 11 (fun _ _ => rfl) (Or.inl rfl)⟩

/-- C7: when the window fails to yield a device context (GetDC returns
null), createForWindow returns the empty result immediately: its whole
trace is the single failed GetDC probe, so in particular no call into
the Symbol Resolver occurs. -/
theorem createForWindow_no_dc_short_circuit (env : WinEnv) (hWnd pfd : Nat)
    (h : env.getDC hWnd = 0) :
    OpenGLContext.createForWindow env hWnd pfd = (none, [Ev.getDC hWnd])
    ∧ (∀ s, Ev.resolveCall s ∉ (OpenGLContext.createForWindow env hWnd pfd).2) := by
  rw [OpenGLContext.createForWindow]
  simp [h]

/-- C7 witness: in envOk, GetDC fails for window handle 0 and
createForWindow short-circuits to the empty result. -/
theorem createForWindow_no_dc_short_circuit_witness :
    envOk.getDC 0 = 0
    ∧ (OpenGLContext.createForWindow envOk 0 11 = (none, [Ev.getDC 0])
      ∧ (∀ s, Ev.resolveCall s ∉ (OpenGLContext.createForWindow envOk 0 11).2)) :=
  ⟨rfl, createForWindow_no_dc_short_circuit envOk 0 11 rfl⟩
